import Mathlib

/-!
Verification of the NXT Vulkan backend's usage-transition / barrier protocol,
device serial-tracking initial state, texture destruction path, and the
ref-counted handle wrapper, as a shallow embedding of the sources
(`src/backend/vulkan/TextureVk.cpp`, `src/backend/vulkan/VulkanBackend.h`,
`src/tests/unittests/ObjectBaseTests.cpp`).

Bitmasks (`nxt::TextureUsageBit`, `VkAccessFlags`, `VkPipelineStageFlags`,
`VkImageAspectFlags`) are embedded as `Nat` with `&&&` / `|||` for the C++
`&` / `|` operators. Vulkan enumerants use their values from the Vulkan
headers. The texture format enum is restricted to the four cases handled by
`TextureVk.cpp`.
-/

namespace NxtVulkan

/-- The NXT texture formats handled by the Vulkan backend
(`VulkanImageFormat` in TextureVk.cpp covers exactly these four). -/
inductive TextureFormat where
  | R8G8B8A8Unorm
  | R8G8B8A8Uint
  | B8G8R8A8Unorm
  | D32FloatS8Uint
deriving DecidableEq, Fintype, Repr

namespace TextureUsageBit

/-- Modelled from the spec: `nxt::TextureUsageBit` (the generated `nxt.h` enum
is not under `src/`): the resource usage is "a bitmask of read/write/access
roles: transfer-source, transfer-destination, sampled, storage,
output-attachment, present, or none" (spec paragraph 3). `None` is the empty mask. -/
def None : Nat := 0

/-- Modelled from the spec: the transfer-source role bit of `nxt::TextureUsageBit`. -/
def TransferSrc : Nat := 1

/-- Modelled from the spec: the transfer-destination role bit of `nxt::TextureUsageBit`. -/
def TransferDst : Nat := 2

/-- Modelled from the spec: the sampled role bit of `nxt::TextureUsageBit`. -/
def Sampled : Nat := 4

/-- Modelled from the spec: the storage role bit of `nxt::TextureUsageBit`. -/
def Storage : Nat := 8

/-- Modelled from the spec: the output-attachment role bit of `nxt::TextureUsageBit`. -/
def OutputAttachment : Nat := 16

/-- Modelled from the spec: the present role bit of `nxt::TextureUsageBit`. -/
def Present : Nat := 32

end TextureUsageBit

/-- Modelled from the spec: `nxt::HasZeroOrOneBits` (common bit utilities, not
under `src/`): decides whether a bitmask is zero or "a power-of-two single
bit" (spec paragraph 4.5), by the standard `v & (v - 1) == 0` test. -/
def HasZeroOrOneBits (value : Nat) : Bool :=
  value &&& (value - 1) == 0

/-- Modelled from the spec: `TextureFormatHasDepth` (backend common code, not
under `src/`): of the four handled formats only `D32FloatS8Uint` has a depth
component. -/
def TextureFormatHasDepth : TextureFormat → Bool
  | .D32FloatS8Uint => true
  | _ => false

/-- Modelled from the spec: `TextureFormatHasStencil` (backend common code, not
under `src/`): of the four handled formats only `D32FloatS8Uint` has a stencil
component. -/
def TextureFormatHasStencil : TextureFormat → Bool
  | .D32FloatS8Uint => true
  | _ => false

/-- Modelled from the spec: `TextureFormatHasDepthOrStencil` (backend common
code, not under `src/`): a format is a depth/stencil format when it has a
depth or a stencil component. -/
def TextureFormatHasDepthOrStencil (format : TextureFormat) : Bool :=
  TextureFormatHasDepth format || TextureFormatHasStencil format

/-! Vulkan enumerant values, from the Vulkan headers (external contract). -/

def VK_ACCESS_SHADER_READ_BIT : Nat := 0x20
def VK_ACCESS_SHADER_WRITE_BIT : Nat := 0x40
def VK_ACCESS_COLOR_ATTACHMENT_READ_BIT : Nat := 0x80
def VK_ACCESS_COLOR_ATTACHMENT_WRITE_BIT : Nat := 0x100
def VK_ACCESS_DEPTH_STENCIL_ATTACHMENT_READ_BIT : Nat := 0x200
def VK_ACCESS_DEPTH_STENCIL_ATTACHMENT_WRITE_BIT : Nat := 0x400
def VK_ACCESS_TRANSFER_READ_BIT : Nat := 0x800
def VK_ACCESS_TRANSFER_WRITE_BIT : Nat := 0x1000

def VK_PIPELINE_STAGE_TOP_OF_PIPE_BIT : Nat := 0x1
def VK_PIPELINE_STAGE_VERTEX_SHADER_BIT : Nat := 0x8
def VK_PIPELINE_STAGE_FRAGMENT_SHADER_BIT : Nat := 0x80
def VK_PIPELINE_STAGE_EARLY_FRAGMENT_TESTS_BIT : Nat := 0x100
def VK_PIPELINE_STAGE_LATE_FRAGMENT_TESTS_BIT : Nat := 0x200
def VK_PIPELINE_STAGE_COLOR_ATTACHMENT_OUTPUT_BIT : Nat := 0x400
def VK_PIPELINE_STAGE_COMPUTE_SHADER_BIT : Nat := 0x800
def VK_PIPELINE_STAGE_TRANSFER_BIT : Nat := 0x1000

def VK_IMAGE_LAYOUT_UNDEFINED : Nat := 0
def VK_IMAGE_LAYOUT_GENERAL : Nat := 1
def VK_IMAGE_LAYOUT_COLOR_ATTACHMENT_OPTIMAL : Nat := 2
def VK_IMAGE_LAYOUT_DEPTH_STENCIL_ATTACHMENT_OPTIMAL : Nat := 3
def VK_IMAGE_LAYOUT_SHADER_READ_ONLY_OPTIMAL : Nat := 5
def VK_IMAGE_LAYOUT_TRANSFER_DST_OPTIMAL : Nat := 7

def VK_IMAGE_ASPECT_COLOR_BIT : Nat := 0x1
def VK_IMAGE_ASPECT_DEPTH_BIT : Nat := 0x2
def VK_IMAGE_ASPECT_STENCIL_BIT : Nat := 0x4

def VK_NULL_HANDLE : Nat := 0

/-- `VulkanAccessFlags` (TextureVk.cpp, lines 80-108): which Vulkan access
types could be required for the given NXT usage. Each `if` mirrors one
`flags |= ...` accumulation of the C++. -/
def VulkanAccessFlags (usage : Nat) (format : TextureFormat) : Nat :=
  let flags : Nat := 0
  let flags := if usage &&& TextureUsageBit.TransferSrc ≠ 0 then
      flags ||| VK_ACCESS_TRANSFER_READ_BIT else flags
  let flags := if usage &&& TextureUsageBit.TransferDst ≠ 0 then
      flags ||| VK_ACCESS_TRANSFER_WRITE_BIT else flags
  let flags := if usage &&& TextureUsageBit.Sampled ≠ 0 then
      flags ||| VK_ACCESS_SHADER_READ_BIT else flags
  let flags := if usage &&& TextureUsageBit.Storage ≠ 0 then
      flags ||| (VK_ACCESS_SHADER_READ_BIT ||| VK_ACCESS_SHADER_WRITE_BIT) else flags
  let flags := if usage &&& TextureUsageBit.OutputAttachment ≠ 0 then
      if TextureFormatHasDepthOrStencil format then
        flags ||| (VK_ACCESS_DEPTH_STENCIL_ATTACHMENT_READ_BIT |||
                   VK_ACCESS_DEPTH_STENCIL_ATTACHMENT_WRITE_BIT)
      else
        flags ||| (VK_ACCESS_COLOR_ATTACHMENT_READ_BIT |||
                   VK_ACCESS_COLOR_ATTACHMENT_WRITE_BIT)
    else flags
  flags

/-- `VulkanImageLayout` (TextureVk.cpp, lines 111-146): which Vulkan image
layout should be used for the given NXT usage. The C++ `switch` on a
single-bit usage is mirrored by the `if` chain; the `UNREACHABLE()` default
becomes `none`. -/
def VulkanImageLayout (usage : Nat) (format : TextureFormat) : Option Nat :=
  if usage = TextureUsageBit.None then some VK_IMAGE_LAYOUT_UNDEFINED
  else if ¬ HasZeroOrOneBits usage then some VK_IMAGE_LAYOUT_GENERAL
  else if usage = TextureUsageBit.TransferDst then some VK_IMAGE_LAYOUT_TRANSFER_DST_OPTIMAL
  else if usage = TextureUsageBit.Sampled then some VK_IMAGE_LAYOUT_SHADER_READ_ONLY_OPTIMAL
  else if usage = TextureUsageBit.TransferSrc then some VK_IMAGE_LAYOUT_GENERAL
  else if usage = TextureUsageBit.Storage then some VK_IMAGE_LAYOUT_GENERAL
  else if usage = TextureUsageBit.Present then some VK_IMAGE_LAYOUT_GENERAL
  else if usage = TextureUsageBit.OutputAttachment then
    if TextureFormatHasDepthOrStencil format then
      some VK_IMAGE_LAYOUT_DEPTH_STENCIL_ATTACHMENT_OPTIMAL
    else
      some VK_IMAGE_LAYOUT_COLOR_ATTACHMENT_OPTIMAL
  else none

/-- `VulkanPipelineStage` (TextureVk.cpp, lines 149-180): which Vulkan
pipeline stages can access a texture in the given NXT usage. The `None` early
return and the three conditional accumulations mirror the C++. -/
def VulkanPipelineStage (usage : Nat) (format : TextureFormat) : Nat :=
  if usage = TextureUsageBit.None then VK_PIPELINE_STAGE_TOP_OF_PIPE_BIT
  else
    let flags : Nat := 0
    let flags := if usage &&& (TextureUsageBit.TransferSrc ||| TextureUsageBit.TransferDst) ≠ 0 then
        flags ||| VK_PIPELINE_STAGE_TRANSFER_BIT else flags
    let flags := if usage &&& (TextureUsageBit.Sampled ||| TextureUsageBit.Storage) ≠ 0 then
        flags ||| (VK_PIPELINE_STAGE_VERTEX_SHADER_BIT |||
                   VK_PIPELINE_STAGE_FRAGMENT_SHADER_BIT |||
                   VK_PIPELINE_STAGE_COMPUTE_SHADER_BIT) else flags
    let flags := if usage &&& TextureUsageBit.OutputAttachment ≠ 0 then
        if TextureFormatHasDepthOrStencil format then
          flags ||| (VK_PIPELINE_STAGE_EARLY_FRAGMENT_TESTS_BIT |||
                     VK_PIPELINE_STAGE_LATE_FRAGMENT_TESTS_BIT)
        else
          flags ||| VK_PIPELINE_STAGE_COLOR_ATTACHMENT_OUTPUT_BIT
      else flags
    flags

/-- `VulkanAspectMask` (TextureVk.cpp, lines 183-199): which Vulkan texture
aspects are relevant for the given NXT format. -/
def VulkanAspectMask (format : TextureFormat) : Nat :=
  let isDepth := TextureFormatHasDepth format
  let isStencil := TextureFormatHasStencil format
  let flags : Nat := 0
  let flags := if isDepth then flags ||| VK_IMAGE_ASPECT_DEPTH_BIT else flags
  let flags := if isStencil then flags ||| VK_IMAGE_ASPECT_STENCIL_BIT else flags
  if flags ≠ 0 then flags else VK_IMAGE_ASPECT_COLOR_BIT

/-- The synchronization-relevant fields `Texture::RecordBarrier`
(TextureVk.cpp, lines 269-297) writes into the `VkImageMemoryBarrier` and the
`CmdPipelineBarrier` stage arguments. -/
structure BarrierParams where
  srcStages : Nat
  dstStages : Nat
  srcAccessMask : Nat
  dstAccessMask : Nat
  oldLayout : Option Nat
  newLayout : Option Nat
  aspectMask : Nat
deriving DecidableEq, Repr

/-- The access/stage/layout/aspect tuple computed by `Texture::RecordBarrier`
for a `currentUsage → targetUsage` transition of a texture with the given
format, exactly as the C++ fills the barrier (lines 273-288). -/
def RecordBarrierParams (currentUsage targetUsage : Nat) (format : TextureFormat) :
    BarrierParams :=
  { srcStages := VulkanPipelineStage currentUsage format
    dstStages := VulkanPipelineStage targetUsage format
    srcAccessMask := VulkanAccessFlags currentUsage format
    dstAccessMask := VulkanAccessFlags targetUsage format
    oldLayout := VulkanImageLayout currentUsage format
    newLayout := VulkanImageLayout targetUsage format
    aspectMask := VulkanAspectMask format }

/-- The serial-tracking members of the Vulkan `Device`
(`VulkanBackend.h`, lines 190-193). Serials are 64-bit counters; the claims
here never overflow, so `Nat` is used. -/
structure DeviceSerialState where
  mNextSerial : Nat
  mCompletedSerial : Nat
deriving DecidableEq, Repr

/-- The initial device serial state, from the member initializers
`Serial mNextSerial = 1; Serial mCompletedSerial = 0;` in `VulkanBackend.h`. -/
def initialDeviceSerialState : DeviceSerialState :=
  { mNextSerial := 1, mCompletedSerial := 0 }

/-- Modelled from the spec: the submit step of the device execution tracker
(the `Device` submit code is not under `src/`): a submission "is assigned the
next Serial value (serial counter increments)" (spec paragraph 4.4), so it
receives `mNextSerial` and the counter advances by one. -/
def submitPendingCommands (d : DeviceSerialState) : DeviceSerialState × Nat :=
  ({ d with mNextSerial := d.mNextSerial + 1 }, d.mNextSerial)

/-- The serial of the most recently submitted work: one below the next serial
to be assigned (0 when nothing was ever submitted). -/
def lastSubmittedSerial (d : DeviceSerialState) : Nat :=
  d.mNextSerial - 1

/-- The driver-handle-owning state of a `Texture` (`TextureVk.cpp`):
the `VkImage mHandle` member, embedded as a `Nat` with `VK_NULL_HANDLE = 0`. -/
structure TextureState where
  mHandle : Nat
deriving DecidableEq, Repr

/-- The observable effect of running `Texture::~Texture`
(`TextureVk.cpp`, lines 246-257): the resulting member state, the handles
passed to `FencedDeleter::DeleteWhenUnused`, and the handles destroyed
directly through the driver (the destructor never does the latter). -/
structure DestructorEffect where
  state : TextureState
  queuedForFencedDeletion : List Nat
  destroyedDirectly : List Nat
deriving DecidableEq, Repr

/-- `Texture::~Texture` (`TextureVk.cpp`, lines 246-257): when `mHandle` is
not `VK_NULL_HANDLE` it is handed to `FencedDeleter::DeleteWhenUnused` and
then nulled; no direct driver destruction ever happens. -/
def textureDestructor (t : TextureState) : DestructorEffect :=
  if t.mHandle ≠ VK_NULL_HANDLE then
    { state := { mHandle := VK_NULL_HANDLE }
      queuedForFencedDeletion := [t.mHandle]
      destroyedDirectly := [] }
  else
    { state := t
      queuedForFencedDeletion := []
      destroyedDirectly := [] }

/-- Modelled from the spec: the ref-counted handle wrapper (`nxt::ObjectBase`
of `nxtcpp.h`, exercised by `ObjectBaseTests.cpp` but itself not under
`src/`): a thin wrapper holding an optional raw handle (spec paragraph 9).
Handles are identified by `Nat`; an empty wrapper holds `none`. -/
structure ObjectWrapper where
  mHandle : Option Nat
deriving DecidableEq, Repr

/-- Modelled from the spec: the external reference count the wrapper's
releases/retains act on (the tests drive it through `NxtReference` /
`NxtRelease` on an `int`). -/
structure RefWorld where
  refcount : Int
deriving DecidableEq, Repr

/-- Modelled from the spec: the "retain" constructor of the wrapper — "take a
new reference, increment" (spec paragraph 9); matches the
`ObjectBase.CTypeConstructor` test. -/
def objectFromRaw (h : Nat) (w : RefWorld) : ObjectWrapper × RefWorld :=
  ({ mHandle := some h }, { refcount := w.refcount + 1 })

/-- Modelled from the spec: the "adopt" constructor `Acquire` — "take
ownership, no increment" (spec paragraph 9); matches the
`ObjectBase.AcquireConstruction` test. -/
def objectAcquire (h : Nat) (w : RefWorld) : ObjectWrapper × RefWorld :=
  ({ mHandle := some h }, w)

/-- Modelled from the spec: the wrapper destructor releases the held
reference (decrement) when a handle is held, and does nothing otherwise. -/
def objectDestroy (o : ObjectWrapper) (w : RefWorld) : RefWorld :=
  match o.mHandle with
  | some _ => { refcount := w.refcount - 1 }
  | none => w

/-- Modelled from the spec: the move transfer — "transfers without
incrementing and clears the source" (spec paragraph 9); yields the cleared
source, the new destination and the untouched reference count; matches the
`ObjectBase.MoveConstructor` / `ObjectBase.MoveAssignment` tests. -/
def objectMove (src : ObjectWrapper) (w : RefWorld) :
    ObjectWrapper × ObjectWrapper × RefWorld :=
  ({ mHandle := none }, { mHandle := src.mHandle }, w)

/-! Shared bitwise helper lemmas. -/

theorem lor_self_nat (x : Nat) : x ||| x = x := by
  apply Nat.eq_of_testBit_eq
  intro i
  simp [Nat.testBit_lor]

theorem lor_eq_zero_nat {x y : Nat} : x ||| y = 0 ↔ x = 0 ∧ y = 0 := by
  constructor
  · intro h
    constructor
    · apply Nat.zero_of_testBit_eq_false
      intro i
      have hb := congrArg (fun n => n.testBit i) h
      simp [Nat.testBit_lor] at hb
      exact hb.1
    · apply Nat.zero_of_testBit_eq_false
      intro i
      have hb := congrArg (fun n => n.testBit i) h
      simp [Nat.testBit_lor] at hb
      exact hb.2
  · rintro ⟨rfl, rfl⟩
    rfl

theorem lor_ne_zero_nat {x y : Nat} : x ||| y ≠ 0 ↔ x ≠ 0 ∨ y ≠ 0 := by
  rw [Ne, lor_eq_zero_nat]
  tauto

theorem cond_or_split (p q : Prop) [Decidable p] [Decidable q] (x : Nat) :
    (if p ∨ q then x else 0) = (if p then x else 0) ||| (if q then x else 0) := by
  by_cases hp : p <;> by_cases hq : q <;>
    simp [hp, hq, lor_self_nat, Nat.or_zero, Nat.zero_or]

/-- `VulkanAccessFlags` written as a union of independent per-usage-bit
contributions; this is literally how the C++ accumulates `flags`. -/
theorem accessFlags_eq_or_form (usage : Nat) (format : TextureFormat) :
    VulkanAccessFlags usage format =
      (if usage &&& TextureUsageBit.TransferSrc ≠ 0 then
        VK_ACCESS_TRANSFER_READ_BIT else 0) |||
      (if usage &&& TextureUsageBit.TransferDst ≠ 0 then
        VK_ACCESS_TRANSFER_WRITE_BIT else 0) |||
      (if usage &&& TextureUsageBit.Sampled ≠ 0 then
        VK_ACCESS_SHADER_READ_BIT else 0) |||
      (if usage &&& TextureUsageBit.Storage ≠ 0 then
        VK_ACCESS_SHADER_READ_BIT ||| VK_ACCESS_SHADER_WRITE_BIT else 0) |||
      (if usage &&& TextureUsageBit.OutputAttachment ≠ 0 then
        (if TextureFormatHasDepthOrStencil format then
          VK_ACCESS_DEPTH_STENCIL_ATTACHMENT_READ_BIT |||
          VK_ACCESS_DEPTH_STENCIL_ATTACHMENT_WRITE_BIT
        else
          VK_ACCESS_COLOR_ATTACHMENT_READ_BIT |||
          VK_ACCESS_COLOR_ATTACHMENT_WRITE_BIT) else 0) := by
  unfold VulkanAccessFlags
  split_ifs <;> simp [Nat.zero_or, Nat.or_zero, Nat.lor_assoc]

theorem and_lor_distrib_left_nat (a b c : Nat) :
    a &&& (b ||| c) = (a &&& b) ||| (a &&& c) := by
  apply Nat.eq_of_testBit_eq
  intro i
  simp [Nat.testBit_land, Nat.testBit_lor, Bool.and_or_distrib_left]

/-- Claim C1: any usage bitmask with more than one bit set (two distinct set
bits) is mapped by `VulkanImageLayout` to `VK_IMAGE_LAYOUT_GENERAL`, for
every format. Usage masks combine the six defined usage bits, so they are
below 64. -/
theorem multi_bit_usage_maps_to_general_layout :
    ∀ usage : Nat, usage < 64 →
      ∀ format : TextureFormat,
        (∃ i, i < 6 ∧ ∃ j, j < 6 ∧ i ≠ j ∧
          usage.testBit i = true ∧ usage.testBit j = true) →
        VulkanImageLayout usage format = some VK_IMAGE_LAYOUT_GENERAL := by
  decide

theorem multi_bit_usage_maps_to_general_layout_witness :
    5 < 64 ∧
    (∃ i, i < 6 ∧ ∃ j, j < 6 ∧ i ≠ j ∧
      Nat.testBit 5 i = true ∧ Nat.testBit 5 j = true) ∧
    VulkanImageLayout 5 TextureFormat.R8G8B8A8Unorm = some VK_IMAGE_LAYOUT_GENERAL :=
  ⟨by decide, by decide,
    multi_bit_usage_maps_to_general_layout 5 (by decide)
      TextureFormat.R8G8B8A8Unorm (by decide)⟩

/-- Claim C2: each single-bit usage is mapped by `VulkanImageLayout` to the
most specific layout available for it: the dedicated transfer-destination,
shader-read-only, and (depth/stencil vs color) attachment-optimal layouts for
`TransferDst`, `Sampled` and `OutputAttachment`; for `TransferSrc`, `Storage`
and `Present` the most specific layout the backend can use is the general
one (the source documents why no more specific layout is usable there). -/
theorem single_bit_usage_layout_mapping :
    ∀ format : TextureFormat,
      VulkanImageLayout TextureUsageBit.TransferDst format =
        some VK_IMAGE_LAYOUT_TRANSFER_DST_OPTIMAL ∧
      VulkanImageLayout TextureUsageBit.Sampled format =
        some VK_IMAGE_LAYOUT_SHADER_READ_ONLY_OPTIMAL ∧
      VulkanImageLayout TextureUsageBit.OutputAttachment format =
        some (if TextureFormatHasDepthOrStencil format then
          VK_IMAGE_LAYOUT_DEPTH_STENCIL_ATTACHMENT_OPTIMAL
        else
          VK_IMAGE_LAYOUT_COLOR_ATTACHMENT_OPTIMAL) ∧
      VulkanImageLayout TextureUsageBit.TransferSrc format =
        some VK_IMAGE_LAYOUT_GENERAL ∧
      VulkanImageLayout TextureUsageBit.Storage format =
        some VK_IMAGE_LAYOUT_GENERAL ∧
      VulkanImageLayout TextureUsageBit.Present format =
        some VK_IMAGE_LAYOUT_GENERAL := by
  decide

/-- Claim C3: for the `None` usage the transition source scope requires no
wait: the layout is `VK_IMAGE_LAYOUT_UNDEFINED`, the access flags are 0 and
the pipeline stage is `VK_PIPELINE_STAGE_TOP_OF_PIPE_BIT`, for every
format. -/
theorem none_usage_requires_no_wait :
    ∀ format : TextureFormat,
      VulkanImageLayout TextureUsageBit.None format =
        some VK_IMAGE_LAYOUT_UNDEFINED ∧
      VulkanAccessFlags TextureUsageBit.None format = 0 ∧
      VulkanPipelineStage TextureUsageBit.None format =
        VK_PIPELINE_STAGE_TOP_OF_PIPE_BIT := by
  decide

/-- Claim C4: `VulkanAccessFlags` is a bitwise-union homomorphism over the
usage mask: the access scope of a union of usages is the union of the access
scopes, for every format. -/
theorem vulkanAccessFlags_lor_hom (u1 u2 : Nat) (format : TextureFormat) :
    VulkanAccessFlags (u1 ||| u2) format =
      VulkanAccessFlags u1 format ||| VulkanAccessFlags u2 format := by
  rw [accessFlags_eq_or_form, accessFlags_eq_or_form, accessFlags_eq_or_form]
  simp only [Nat.and_distrib_right, lor_ne_zero_nat, cond_or_split]
  ac_rfl

/-- Claim C5: for every usage bitmask and format, the pipeline-stage scope
contains the transfer stage iff a transfer usage bit is set, contains the
vertex/fragment/compute shader stages iff `Sampled` or `Storage` is set,
contains the early/late fragment-test stages iff `OutputAttachment` is set on
a depth-or-stencil format, and contains the color-attachment-output stage iff
`OutputAttachment` is set on a color format. -/
theorem vulkanPipelineStage_scope_characterization (u : Nat) (f : TextureFormat) :
    ((VulkanPipelineStage u f &&& VK_PIPELINE_STAGE_TRANSFER_BIT =
        VK_PIPELINE_STAGE_TRANSFER_BIT) ↔
      (u &&& TextureUsageBit.TransferSrc ≠ 0 ∨
        u &&& TextureUsageBit.TransferDst ≠ 0)) ∧
    ((VulkanPipelineStage u f &&&
        (VK_PIPELINE_STAGE_VERTEX_SHADER_BIT |||
         VK_PIPELINE_STAGE_FRAGMENT_SHADER_BIT |||
         VK_PIPELINE_STAGE_COMPUTE_SHADER_BIT) =
        (VK_PIPELINE_STAGE_VERTEX_SHADER_BIT |||
         VK_PIPELINE_STAGE_FRAGMENT_SHADER_BIT |||
         VK_PIPELINE_STAGE_COMPUTE_SHADER_BIT)) ↔
      (u &&& TextureUsageBit.Sampled ≠ 0 ∨ u &&& TextureUsageBit.Storage ≠ 0)) ∧
    ((VulkanPipelineStage u f &&&
        (VK_PIPELINE_STAGE_EARLY_FRAGMENT_TESTS_BIT |||
         VK_PIPELINE_STAGE_LATE_FRAGMENT_TESTS_BIT) =
        (VK_PIPELINE_STAGE_EARLY_FRAGMENT_TESTS_BIT |||
         VK_PIPELINE_STAGE_LATE_FRAGMENT_TESTS_BIT)) ↔
      (u &&& TextureUsageBit.OutputAttachment ≠ 0 ∧
        TextureFormatHasDepthOrStencil f = true)) ∧
    ((VulkanPipelineStage u f &&& VK_PIPELINE_STAGE_COLOR_ATTACHMENT_OUTPUT_BIT =
        VK_PIPELINE_STAGE_COLOR_ATTACHMENT_OUTPUT_BIT) ↔
      (u &&& TextureUsageBit.OutputAttachment ≠ 0 ∧
        TextureFormatHasDepthOrStencil f = false)) := by
  have e1 : (u &&& TextureUsageBit.TransferSrc ≠ 0 ∨
      u &&& TextureUsageBit.TransferDst ≠ 0) ↔
      u &&& (TextureUsageBit.TransferSrc ||| TextureUsageBit.TransferDst) ≠ 0 := by
    rw [and_lor_distrib_left_nat, lor_ne_zero_nat]
  have e2 : (u &&& TextureUsageBit.Sampled ≠ 0 ∨
      u &&& TextureUsageBit.Storage ≠ 0) ↔
      u &&& (TextureUsageBit.Sampled ||| TextureUsageBit.Storage) ≠ 0 := by
    rw [and_lor_distrib_left_nat, lor_ne_zero_nat]
  rw [e1, e2]
  by_cases h0 : u = 0
  · subst h0
    revert f
    decide
  · by_cases c1 : u &&& (TextureUsageBit.TransferSrc ||| TextureUsageBit.TransferDst) ≠ 0 <;>
    by_cases c2 : u &&& (TextureUsageBit.Sampled ||| TextureUsageBit.Storage) ≠ 0 <;>
    by_cases c3 : u &&& TextureUsageBit.OutputAttachment ≠ 0 <;>
    by_cases df : TextureFormatHasDepthOrStencil f = true <;>
    simp [VulkanPipelineStage, TextureUsageBit.None, h0, c1, c2, c3, df] <;>
    decide

/-- Claim C6: the usage-transition mapping is a pure, deterministic function:
two evaluations of `Texture::RecordBarrier`'s parameter computation on equal
(currentUsage, targetUsage, format) inputs yield the identical
access/stage/layout/aspect tuple. -/
theorem recordBarrier_params_deterministic
    (cu1 tu1 : Nat) (f1 : TextureFormat) (cu2 tu2 : Nat) (f2 : TextureFormat)
    (hcu : cu1 = cu2) (htu : tu1 = tu2) (hf : f1 = f2) :
    RecordBarrierParams cu1 tu1 f1 = RecordBarrierParams cu2 tu2 f2 := by
  subst hcu
  subst htu
  subst hf
  rfl

theorem recordBarrier_params_deterministic_witness :
    (0 : Nat) = 0 ∧ (4 : Nat) = 4 ∧
    TextureFormat.R8G8B8A8Unorm = TextureFormat.R8G8B8A8Unorm ∧
    RecordBarrierParams 0 4 TextureFormat.R8G8B8A8Unorm =
      RecordBarrierParams 0 4 TextureFormat.R8G8B8A8Unorm :=
  ⟨rfl, rfl, rfl,
    recordBarrier_params_deterministic 0 4 TextureFormat.R8G8B8A8Unorm
      0 4 TextureFormat.R8G8B8A8Unorm rfl rfl rfl⟩

/-- Claim C7: in the initial device state the completed serial is 0 and the
next serial is 1, the first submission receives serial 1, and the invariant
"completed serial ≤ last-submitted serial" holds at initialization (and still
after the first submission). -/
theorem initial_device_serial_state_invariant :
    initialDeviceSerialState.mCompletedSerial = 0 ∧
    initialDeviceSerialState.mNextSerial = 1 ∧
    (submitPendingCommands initialDeviceSerialState).2 = 1 ∧
    initialDeviceSerialState.mCompletedSerial ≤
      lastSubmittedSerial initialDeviceSerialState ∧
    (submitPendingCommands initialDeviceSerialState).1.mCompletedSerial ≤
      lastSubmittedSerial (submitPendingCommands initialDeviceSerialState).1 := by
  decide

/-- Claim C8: `Texture::~Texture` never destroys the driver image directly;
for a non-null stored handle it queues the handle on the FencedDeleter
exactly once and nulls the member, so a second destructor run queues (and
destroys) nothing. -/
theorem texture_destructor_queues_once
    (t : TextureState) (h : t.mHandle ≠ VK_NULL_HANDLE) :
    (textureDestructor t).destroyedDirectly = [] ∧
    (textureDestructor t).queuedForFencedDeletion = [t.mHandle] ∧
    (textureDestructor t).state.mHandle = VK_NULL_HANDLE ∧
    (textureDestructor (textureDestructor t).state).queuedForFencedDeletion = [] ∧
    (textureDestructor (textureDestructor t).state).destroyedDirectly = [] := by
  have h0 : ¬ (t.mHandle = 0) := by simpa [VK_NULL_HANDLE] using h
  simp [textureDestructor, VK_NULL_HANDLE, h0]

theorem texture_destructor_queues_once_witness :
    (TextureState.mk 42).mHandle ≠ VK_NULL_HANDLE ∧
    ((textureDestructor ⟨42⟩).destroyedDirectly = [] ∧
      (textureDestructor ⟨42⟩).queuedForFencedDeletion = [(TextureState.mk 42).mHandle] ∧
      (textureDestructor ⟨42⟩).state.mHandle = VK_NULL_HANDLE ∧
      (textureDestructor (textureDestructor ⟨42⟩).state).queuedForFencedDeletion = [] ∧
      (textureDestructor (textureDestructor ⟨42⟩).state).destroyedDirectly = []) :=
  ⟨by decide, texture_destructor_queues_once ⟨42⟩ (by decide)⟩

/-- Claim C9: the ref-counted handle wrapper: constructing from a raw handle
increments the reference count by one and its destructor decrements it back;
`Acquire` adopts without incrementing; a move leaves the source holding
nothing, transfers the handle, and leaves the reference count unchanged. -/
theorem object_wrapper_refcount_semantics
    (h : Nat) (w : RefWorld) (src : ObjectWrapper) :
    (objectFromRaw h w).2.refcount = w.refcount + 1 ∧
    (objectFromRaw h w).1.mHandle = some h ∧
    (objectDestroy (objectFromRaw h w).1 (objectFromRaw h w).2).refcount =
      w.refcount ∧
    (objectDestroy { mHandle := some h } w).refcount = w.refcount - 1 ∧
    (objectAcquire h w).2 = w ∧
    (objectAcquire h w).1.mHandle = some h ∧
    (objectMove src w).1.mHandle = none ∧
    (objectMove src w).2.1.mHandle = src.mHandle ∧
    (objectMove src w).2.2 = w := by
  simp [objectFromRaw, objectAcquire, objectDestroy, objectMove]

/-- Claim C10: for the `Present` usage bit alone both the access scope and
the pipeline-stage scope are empty (0) for every format, while the `None`
usage yields the non-empty top-of-pipe stage scope. -/
theorem present_usage_empty_scopes :
    ∀ format : TextureFormat,
      VulkanAccessFlags TextureUsageBit.Present format = 0 ∧
      VulkanPipelineStage TextureUsageBit.Present format = 0 ∧
      VulkanPipelineStage TextureUsageBit.None format =
        VK_PIPELINE_STAGE_TOP_OF_PIPE_BIT ∧
      VK_PIPELINE_STAGE_TOP_OF_PIPE_BIT ≠ 0 := by
  decide

end NxtVulkan
